import Mathlib

/-!
Verification of `dlt/config/optim.py` (pydlt): command-line-configurable
factory functions building an optimizer, a learning-rate schedule driver,
and two checkpoint-backed state restorers for a training loop.

Shallow embedding conventions:
* Python floats/ints that are only passed through are modelled as `ℚ`
  (the epoch counter as `ℤ`); no float arithmetic occurs in the module.
* `fetch_opts` is an external collaborator; the options record it returns
  is passed explicitly as an `Opts` argument.
* The external `Checkpointer.load()` result is passed explicitly as an
  `Option` value (`none` = no checkpoint on disk).
* Exceptions are modelled with `Except PyError`; where Python mutates the
  caller-owned optimizer in place before a possible exception, the
  function returns the (possibly mutated) state alongside the `Except`.
* The external library scheduler steps (`ReduceLROnPlateau.step`,
  `StepLR.step`) are opaque state transformers, packaged in `SchedLib`.
* `print` output is modelled as a list of emitted `Output` events carrying
  the data that is interpolated into the message (float rendering such as
  `\x7b1:.2e\x7d` is not modelled).
-/

namespace PyDLT

/-- Python exception kinds that can originate in this module. -/
inductive PyError
  | valueError (msg : String)
  | unboundLocalError
  | nameError
  | keyError
deriving DecidableEq

/-- A model parameter: only its `requires_grad` flag is read by this module. -/
structure Param where
  requires_grad : Bool
deriving DecidableEq

/-- The model: this module only reads `model.parameters()`. -/
structure Model where
  parameters : List Param
deriving DecidableEq

/-- The options record returned by `fetch_opts` (fields read by this module). -/
structure Opts where
  optimizer : String
  lr : ℚ
  momentum : ℚ
  dampening : ℚ
  beta1 : ℚ
  beta2 : ℚ
  weight_decay : ℚ
  rho : ℚ
  optim_eps : ℚ
  lr_decay : ℚ
  alpha : ℚ
  centered : Bool
  lr_schedule : String
  lr_step_size : ℚ
  lr_patience : ℚ
  lr_cooldown : ℚ
  lr_ratio : ℚ
  lr_min : ℚ
  experiment_name : String
  save_path : String
deriving DecidableEq

namespace parse

/-- Modelled from the spec: `parse.optimizers` lives in the options module
(`dlt/config/opts.py`), which is not part of the analysed source. The spec
describes the module as "a string-keyed dispatch table mapping a
configuration value to a constructor invocation", with a value error for an
unknown optimizer name; the recognized set is therefore the seven selector
strings of the dispatch table in `optimizer`. -/
def optimizers : List String :=
  ["adam", "sgd", "adadelta", "adagrad", "sparseadam", "adamax", "rmsprop"]

end parse

/-- A constructed `torch.optim` optimizer object, recorded as the constructor
that was invoked together with its (named) arguments. -/
inductive TorchOptimizer
  | Adam (params : List Param) (lr : ℚ) (betas : ℚ × ℚ) (weight_decay : ℚ)
  | SGD (params : List Param) (lr momentum dampening weight_decay : ℚ)
  | Adadelta (params : List Param) (lr rho eps weight_decay : ℚ)
  | Adagrad (params : List Param) (lr lr_decay weight_decay : ℚ)
  | SparseAdam (params : List Param) (lr : ℚ) (betas : ℚ × ℚ) (eps : ℚ)
  | Adamax (params : List Param) (lr : ℚ) (betas : ℚ × ℚ) (eps weight_decay : ℚ)
  | RMSprop (params : List Param) (lr alpha eps weight_decay momentum : ℚ)
      (centered : Bool)
deriving DecidableEq

/-- The parameter list a `TorchOptimizer` was constructed with. -/
def TorchOptimizer.params : TorchOptimizer → List Param
  | .Adam p _ _ _ => p
  | .SGD p _ _ _ _ => p
  | .Adadelta p _ _ _ _ => p
  | .Adagrad p _ _ _ => p
  | .SparseAdam p _ _ _ => p
  | .Adamax p _ _ _ _ => p
  | .RMSprop p _ _ _ _ _ _ => p

/-- `optimizer(model)` from `optim.py` lines 24-52: validate the configured
optimizer name against `parse.optimizers`, filter the model parameters by
`requires_grad`, then dispatch over the name to a `torch.optim` constructor.
A name passing the validation but matching no branch would leave
`ret_optimizer` unassigned (Python `UnboundLocalError` at `return`).
The model is threaded through to make mutation (absent here) observable. -/
def optimizer (opts : Opts) (model : Model) :
    Except PyError (TorchOptimizer × Model) :=
  if opts.optimizer ∉ parse.optimizers then
    .error (.valueError ("Optimizer " ++ opts.optimizer ++ " not available."))
  else
    let grad_params := model.parameters.filter (fun p => p.requires_grad)
    if opts.optimizer = "adam" then
      .ok (.Adam grad_params opts.lr (opts.beta1, opts.beta2)
        opts.weight_decay, model)
    else if opts.optimizer = "sgd" then
      .ok (.SGD grad_params opts.lr opts.momentum opts.dampening
        opts.weight_decay, model)
    else if opts.optimizer = "adadelta" then
      .ok (.Adadelta grad_params opts.lr opts.rho opts.optim_eps
        opts.weight_decay, model)
    else if opts.optimizer = "adagrad" then
      .ok (.Adagrad grad_params opts.lr opts.lr_decay
        opts.weight_decay, model)
    else if opts.optimizer = "sparseadam" then
      .ok (.SparseAdam grad_params opts.lr (opts.beta1, opts.beta2)
        opts.optim_eps, model)
    else if opts.optimizer = "adamax" then
      .ok (.Adamax grad_params opts.lr (opts.beta1, opts.beta2)
        opts.optim_eps opts.weight_decay, model)
    else if opts.optimizer = "rmsprop" then
      .ok (.RMSprop grad_params opts.lr opts.alpha opts.optim_eps
        opts.weight_decay opts.momentum opts.centered, model)
    else
      .error .unboundLocalError

/-- A constructed learning-rate schedule object, recorded as the constructor
invoked by `scheduler` with its arguments. -/
inductive SchedObj
  | reduceLROnPlateau (mode : String) (factor : ℚ) (threshold : ℚ)
      (patience : ℚ) (verbose : Bool) (threshold_mode : String)
      (cooldown : ℚ) (min_lr : ℚ) (eps : ℚ)
  | stepLR (step_size : ℚ) (gamma : ℚ)
deriving DecidableEq

/-- Which schedule object `scheduler` constructs (lines 75-85); `none` for
`lr_schedule == 'none'` and for unrecognized values, where no object is built. -/
def scheduler_obj (opts : Opts) : Option SchedObj :=
  if opts.lr_schedule = "plateau" then
    some (.reduceLROnPlateau "min" opts.lr_ratio (1 / 10000) opts.lr_patience
      true "rel" opts.lr_cooldown opts.lr_min (1 / 100000000))
  else if opts.lr_schedule = "step" then
    some (.stepLR opts.lr_step_size opts.lr_ratio)
  else
    none

/-- What the inner `schedule_fn` does when called with a metric. -/
inductive SchedCall
  | plateauStep (metric : ℚ)
  | steplrStep
  | noop
deriving DecidableEq

/-- The inner `schedule_fn` defined by the branches of `scheduler`
(lines 79-87): for `'plateau'` it calls `ret_scheduler.step(metric)`, for
`'step'` it calls `ret_scheduler.step()` ignoring the metric, for `'none'`
it does nothing. For any other `lr_schedule` value no branch defines
`schedule_fn`, so referencing it raises a `NameError`. -/
def schedule_fn (opts : Opts) (metric : ℚ) : Except PyError SchedCall :=
  if opts.lr_schedule = "plateau" then .ok (.plateauStep metric)
  else if opts.lr_schedule = "step" then .ok .steplrStep
  else if opts.lr_schedule = "none" then .ok .noop
  else .error .nameError

/-- One optimizer parameter group: the `lr` entry plus the remaining
dictionary entries, kept abstract. -/
structure ParamGroup where
  lr : ℚ
  other : List (String × ℚ)
deriving DecidableEq

/-- The mutable state of a `torch.optim` optimizer visible to this module:
`param_groups[0]` and the remaining groups (a torch optimizer always has at
least one parameter group). -/
structure OptimState where
  pg0 : ParamGroup
  rest : List ParamGroup
deriving DecidableEq

/-- The external library schedule steps (`ReduceLROnPlateau.step(metric)`
and `StepLR.step()`): opaque transformers of the optimizer state. -/
structure SchedLib where
  plateauStep : ℚ → OptimState → OptimState
  steplrStep : OptimState → OptimState

/-- The effect of one `schedule_fn` call on the optimizer state: the two
library steps are delegated to `SchedLib`; the `'none'` branch is `pass`. -/
def applySchedCall (lib : SchedLib) (s : OptimState) : SchedCall → OptimState
  | .plateauStep m => lib.plateauStep m s
  | .steplrStep => lib.steplrStep s
  | .noop => s

/-- The `subset` argument: Python `None`, a string, or a dict. -/
inductive Subset
  | pyNone
  | str (s : String)
  | dict (m : List (String × String))
deriving DecidableEq

/-- `name = subset['optimizer'] if isinstance(subset, dict) else subset`
(lines 94 and 145): a dict without an `'optimizer'` key raises `KeyError`;
Python `None` and the empty string are both falsy, so `None` is mapped to
`""`, which the subsequent truthiness test treats identically. -/
def subsetRawName : Subset → Except PyError String
  | .dict m =>
    match m.lookup "optimizer" with
    | some v => .ok v
    | none => .error .keyError
  | .str s => .ok s
  | .pyNone => .ok ""

/-- `name = ' (\x7b0\x7d)'.format(name) if name else ''` (lines 95 and 146). -/
def nameSuffix (n : String) : String :=
  if n = "" then "" else " (" ++ n ++ ")"

/-- One emitted `print` message, recorded as the data interpolated into it. -/
inductive Output
  | lrChanged (name : String) (oldLr newLr : ℚ)
  | lrInitialized (name : String) (lr : ℚ)
deriving DecidableEq

/-- The closure `schedule_step` returned by `scheduler` (lines 89-96): read
`param_groups[0]['lr']`, run `schedule_fn(metric)`, read the new value, and
print a change message when it differs. Returns the optimizer state (Python
mutates it in place, so it survives a later exception) with the outcome. -/
def schedule_step (lib : SchedLib) (opts : Opts) (subset : Subset)
    (metric : ℚ) (s : OptimState) : OptimState × Except PyError (List Output) :=
  let current_lr := s.pg0.lr
  match schedule_fn opts metric with
  | .error e => (s, .error e)
  | .ok call =>
    let s2 := applySchedCall lib s call
    let new_lr := s2.pg0.lr
    if new_lr ≠ current_lr then
      match subsetRawName subset with
      | .error e => (s2, .error e)
      | .ok n => (s2, .ok [.lrChanged (nameSuffix n) current_lr new_lr])
    else
      (s2, .ok [])

/-- `scheduler(optimizer)` (lines 74-98): constructs the schedule object
selected by `opts.lr_schedule` and returns the single-argument closure. -/
def scheduler (lib : SchedLib) (opts : Opts) (subset : Subset) :
    Option SchedObj × (ℚ → OptimState → OptimState × Except PyError (List Output)) :=
  (scheduler_obj opts, fun metric s => schedule_step lib opts subset metric s)

/-- A constructed `Checkpointer` object (external utility), recorded as its
constructor arguments. -/
structure Checkpointer where
  name : String
  directory : String
  overwrite : Bool
  timestamp : Bool
  add_count : Bool
deriving DecidableEq

/-- Python `v or d` for a loaded checkpoint value: `None` and the number
zero are falsy, anything else is returned as-is. -/
def pyOr {α : Type} [Zero α] [DecidableEq α] (v : Option α) (d : α) : α :=
  match v with
  | none => d
  | some x => if x = 0 then d else x

/-- `epoch_checkpointer()` (lines 116-119): build the epoch checkpointer and
report `epoch_chkp.load() or 1` as the current epoch. `stored` is what the
external `load()` returns (`none` when no checkpoint file exists). -/
def epoch_checkpointer (opts : Opts) (stored : Option ℤ) : Checkpointer × ℤ :=
  let epoch_chkp : Checkpointer :=
    { name := "epoch_" ++ opts.experiment_name, directory := opts.save_path,
      overwrite := true, timestamp := false, add_count := false }
  (epoch_chkp, pyOr stored 1)

/-- `lr_checkpointer(optimizer)` (lines 141-148): build the learning-rate
checkpointer, compute `lr_chkp.load() or opts.lr`, write it into
`optimizer.param_groups[0]['lr']`, then resolve the subset name (possible
`KeyError` after the write) and print the initialization message. Returns
the optimizer state alongside the outcome. -/
def lr_checkpointer (opts : Opts) (subset : Subset) (stored : Option ℚ)
    (s : OptimState) : OptimState × Except PyError (Checkpointer × List Output) :=
  let lr_chkp : Checkpointer :=
    { name := "lr_" ++ opts.experiment_name, directory := opts.save_path,
      overwrite := true, timestamp := false, add_count := false }
  let lr := pyOr stored opts.lr
  let s2 : OptimState := { s with pg0 := { s.pg0 with lr := lr } }
  match subsetRawName subset with
  | .error e => (s2, .error e)
  | .ok n => (s2, .ok (lr_chkp, [.lrInitialized (nameSuffix n) lr]))

/-! Concrete sample inputs used by witness and counterexample theorems. -/

/-- A sample parsed options record (optimizer `adam`, schedule `none`). -/
def sampleOpts : Opts :=
  { optimizer := "adam", lr := 1 / 100, momentum := 9 / 10, dampening := 0,
    beta1 := 9 / 10, beta2 := 999 / 1000, weight_decay := 0, rho := 9 / 10,
    optim_eps := 1 / 100000000, lr_decay := 0, alpha := 99 / 100,
    centered := false, lr_schedule := "none", lr_step_size := 100,
    lr_patience := 10, lr_cooldown := 0, lr_ratio := 1 / 2, lr_min := 0,
    experiment_name := "exp1", save_path := "checkpoints" }

/-- The sample options with an `lr_schedule` value outside the dispatch. -/
def expOpts : Opts := { sampleOpts with lr_schedule := "exp" }

/-- A sample model with one trainable and one frozen parameter. -/
def sampleModel : Model := { parameters := [⟨true⟩, ⟨false⟩] }

/-- A sample optimizer state with a single parameter group. -/
def sampleState : OptimState := { pg0 := { lr := 1 / 100, other := [] }, rest := [] }

/-- A degenerate schedule library whose steps leave the state unchanged. -/
def idLib : SchedLib := { plateauStep := fun _ s => s, steplrStep := fun s => s }

/-! Helper lemmas shared by several claim theorems. -/

/-- Whenever the configured optimizer name passes the validation check, the
dispatch produces an optimizer: `optimizer` returns the model unchanged and
the constructed object holds exactly the `requires_grad` parameters. -/
theorem optimizer_ok_cases (opts : Opts) (model : Model) (o : TorchOptimizer)
    (m2 : Model) (h : optimizer opts model = .ok (o, m2)) :
    m2 = model ∧
      o.params = model.parameters.filter (fun p => p.requires_grad) := by
  by_cases hmem : opts.optimizer ∈ parse.optimizers
  · simp only [parse.optimizers, List.mem_cons, List.not_mem_nil, or_false] at hmem
    rcases hmem with hm | hm | hm | hm | hm | hm | hm <;>
      simp only [optimizer, parse.optimizers, hm, List.mem_cons,
        List.not_mem_nil, or_false, String.reduceEq, or_true, true_or,
        not_true_eq_false, if_false, if_true, ite_true, ite_false,
        reduceIte, Except.ok.injEq, Prod.mk.injEq] at h <;>
      exact ⟨h.2.symm, by rw [← h.1]; rfl⟩
  · simp [optimizer, hmem] at h

/-- For every name in `parse.optimizers`, `optimizer` succeeds. -/
theorem optimizer_ok_of_mem (opts : Opts) (model : Model)
    (h : opts.optimizer ∈ parse.optimizers) :
    ∃ o, optimizer opts model = .ok (o, model) := by
  simp only [parse.optimizers, List.mem_cons, List.not_mem_nil, or_false] at h
  rcases h with hm | hm | hm | hm | hm | hm | hm
  · exact ⟨.Adam (model.parameters.filter (fun p => p.requires_grad)) opts.lr
      (opts.beta1, opts.beta2) opts.weight_decay,
      by simp [optimizer, parse.optimizers, hm]⟩
  · exact ⟨.SGD (model.parameters.filter (fun p => p.requires_grad)) opts.lr
      opts.momentum opts.dampening opts.weight_decay,
      by simp [optimizer, parse.optimizers, hm]⟩
  · exact ⟨.Adadelta (model.parameters.filter (fun p => p.requires_grad)) opts.lr
      opts.rho opts.optim_eps opts.weight_decay,
      by simp [optimizer, parse.optimizers, hm]⟩
  · exact ⟨.Adagrad (model.parameters.filter (fun p => p.requires_grad)) opts.lr
      opts.lr_decay opts.weight_decay,
      by simp [optimizer, parse.optimizers, hm]⟩
  · exact ⟨.SparseAdam (model.parameters.filter (fun p => p.requires_grad)) opts.lr
      (opts.beta1, opts.beta2) opts.optim_eps,
      by simp [optimizer, parse.optimizers, hm]⟩
  · exact ⟨.Adamax (model.parameters.filter (fun p => p.requires_grad)) opts.lr
      (opts.beta1, opts.beta2) opts.optim_eps opts.weight_decay,
      by simp [optimizer, parse.optimizers, hm]⟩
  · exact ⟨.RMSprop (model.parameters.filter (fun p => p.requires_grad)) opts.lr
      opts.alpha opts.optim_eps opts.weight_decay opts.momentum opts.centered,
      by simp [optimizer, parse.optimizers, hm]⟩

/-! Claim theorems. -/

/-- C1: for each of the seven recognized optimizer names, `optimizer(model)`
constructs the correspondingly named library optimizer with the
configuration fields passed through unmodified as constructor parameters,
and returns it (the set `parse.optimizers` is spec-modelled). -/
theorem optimizer_dispatch (opts : Opts) (model : Model) :
    (opts.optimizer = "adam" → optimizer opts model =
      .ok (.Adam (model.parameters.filter (fun p => p.requires_grad)) opts.lr
        (opts.beta1, opts.beta2) opts.weight_decay, model)) ∧
    (opts.optimizer = "sgd" → optimizer opts model =
      .ok (.SGD (model.parameters.filter (fun p => p.requires_grad)) opts.lr
        opts.momentum opts.dampening opts.weight_decay, model)) ∧
    (opts.optimizer = "adadelta" → optimizer opts model =
      .ok (.Adadelta (model.parameters.filter (fun p => p.requires_grad)) opts.lr
        opts.rho opts.optim_eps opts.weight_decay, model)) ∧
    (opts.optimizer = "adagrad" → optimizer opts model =
      .ok (.Adagrad (model.parameters.filter (fun p => p.requires_grad)) opts.lr
        opts.lr_decay opts.weight_decay, model)) ∧
    (opts.optimizer = "sparseadam" → optimizer opts model =
      .ok (.SparseAdam (model.parameters.filter (fun p => p.requires_grad)) opts.lr
        (opts.beta1, opts.beta2) opts.optim_eps, model)) ∧
    (opts.optimizer = "adamax" → optimizer opts model =
      .ok (.Adamax (model.parameters.filter (fun p => p.requires_grad)) opts.lr
        (opts.beta1, opts.beta2) opts.optim_eps opts.weight_decay, model)) ∧
    (opts.optimizer = "rmsprop" → optimizer opts model =
      .ok (.RMSprop (model.parameters.filter (fun p => p.requires_grad)) opts.lr
        opts.alpha opts.optim_eps opts.weight_decay opts.momentum
        opts.centered, model)) := by
  refine ⟨?_, ?_, ?_, ?_, ?_, ?_, ?_⟩ <;>
    · intro hm
      simp [optimizer, parse.optimizers, hm]

/-- C1 witness: the `adam` branch evaluated on concrete inputs. -/
theorem optimizer_dispatch_witness :
    optimizer sampleOpts sampleModel =
      .ok (.Adam (sampleModel.parameters.filter (fun p => p.requires_grad))
        sampleOpts.lr (sampleOpts.beta1, sampleOpts.beta2)
        sampleOpts.weight_decay, sampleModel) :=
  (optimizer_dispatch sampleOpts sampleModel).1 rfl

/-- C2: `optimizer` raises `ValueError` exactly when the configured name is
not in `parse.optimizers`; the failing return carries no constructed
optimizer and leaves the model untouched. -/
theorem optimizer_valueError_iff (opts : Opts) (model : Model) :
    (∃ msg, optimizer opts model = .error (.valueError msg)) ↔
      opts.optimizer ∉ parse.optimizers := by
  constructor
  · rintro ⟨msg, hmsg⟩ hmem
    obtain ⟨o, ho⟩ := optimizer_ok_of_mem opts model hmem
    rw [ho] at hmsg
    exact Except.noConfusion hmsg
  · intro hmem
    exact ⟨"Optimizer " ++ opts.optimizer ++ " not available.",
      by simp [optimizer, hmem]⟩

/-- C8: every successfully constructed optimizer receives exactly the model
parameters whose `requires_grad` flag is true. -/
theorem optimizer_params_requires_grad (opts : Opts) (model : Model)
    (o : TorchOptimizer) (m2 : Model)
    (h : optimizer opts model = .ok (o, m2)) :
    o.params = model.parameters.filter (fun p => p.requires_grad) :=
  (optimizer_ok_cases opts model o m2 h).2

/-- C8 witness: the filtered parameter list on concrete inputs. -/
theorem optimizer_params_requires_grad_witness :
    TorchOptimizer.params
        (.Adam (sampleModel.parameters.filter (fun p => p.requires_grad))
          sampleOpts.lr (sampleOpts.beta1, sampleOpts.beta2)
          sampleOpts.weight_decay) =
      sampleModel.parameters.filter (fun p => p.requires_grad) :=
  optimizer_params_requires_grad sampleOpts sampleModel _ sampleModel (by rfl)

/-- When `schedule_fn` is defined and the subset name resolves, the closure
returned by `scheduler` completes without a module-originated error. -/
theorem schedule_step_ok (lib : SchedLib) (opts : Opts) (subset : Subset)
    (metric : ℚ) (s : OptimState)
    (hcall : ∃ c, schedule_fn opts metric = .ok c)
    (hsub : ∃ n, subsetRawName subset = .ok n) :
    ∃ out, (schedule_step lib opts subset metric s).2 = .ok out := by
  obtain ⟨c, hc⟩ := hcall
  obtain ⟨n, hn⟩ := hsub
  unfold schedule_step
  rw [hc]
  dsimp only
  split
  · rw [hn]
    exact ⟨_, rfl⟩
  · exact ⟨[], rfl⟩

/-- C4: `scheduler` selects the decay policy by `lr_schedule`: `'plateau'`
builds a `ReduceLROnPlateau` whose step receives the closure's metric,
`'step'` builds a `StepLR(step_size, gamma)` stepped while ignoring the
metric, `'none'` builds nothing and the inner action is a no-op; in every
case the returned value is the single-argument closure `schedule_step`. -/
theorem scheduler_dispatch (lib : SchedLib) (opts : Opts) (subset : Subset) :
    (opts.lr_schedule = "plateau" →
      (scheduler lib opts subset).1 = some (.reduceLROnPlateau "min"
        opts.lr_ratio (1 / 10000) opts.lr_patience true "rel"
        opts.lr_cooldown opts.lr_min (1 / 100000000)) ∧
      ∀ metric, schedule_fn opts metric = .ok (.plateauStep metric)) ∧
    (opts.lr_schedule = "step" →
      (scheduler lib opts subset).1 =
        some (.stepLR opts.lr_step_size opts.lr_ratio) ∧
      ∀ metric, schedule_fn opts metric = .ok .steplrStep) ∧
    (opts.lr_schedule = "none" →
      (scheduler lib opts subset).1 = none ∧
      (∀ metric, schedule_fn opts metric = .ok .noop) ∧
      ∀ s, applySchedCall lib s .noop = s) ∧
    (scheduler lib opts subset).2 =
      fun metric s => schedule_step lib opts subset metric s := by
  refine ⟨fun hm => ?_, fun hm => ?_, fun hm => ?_, rfl⟩
  · exact ⟨by simp [scheduler, scheduler_obj, hm],
      fun metric => by simp [schedule_fn, hm]⟩
  · exact ⟨by simp [scheduler, scheduler_obj, hm],
      fun metric => by simp [schedule_fn, hm]⟩
  · exact ⟨by simp [scheduler, scheduler_obj, hm],
      fun metric => by simp [schedule_fn, hm], fun s => rfl⟩

/-- C4 witness: the `'none'` branch of the dispatch on concrete inputs. -/
theorem scheduler_dispatch_witness :
    (scheduler idLib sampleOpts .pyNone).1 = none ∧
    (∀ metric, schedule_fn sampleOpts metric = .ok .noop) ∧
    ∀ s, applySchedCall idLib s .noop = s :=
  (scheduler_dispatch idLib sampleOpts .pyNone).2.2.1 rfl

/-- C3 counterexample: for `lr_schedule = "exp"` no branch of `scheduler`
defines `schedule_fn`, so calling the returned closure raises a `NameError`
originating in this module, contradicting the claim that the unknown-name
`ValueError` is the module's only error. -/
theorem scheduler_nameError_counterexample :
    (schedule_step idLib expOpts .pyNone 0 sampleState).2 =
      .error .nameError := rfl

/-- C3 amended: the unknown-optimizer `ValueError` is the only error the
module raises, provided `lr_schedule` is one of `'plateau'`, `'step'`,
`'none'` and the `subset` argument resolves to a name (it is `None`, a
string, or a dict with an `'optimizer'` key): then every validated
optimizer name reaches a dispatch branch, the scheduler closure runs
without a module error, and both checkpointers complete. -/
theorem module_error_safety (opts : Opts) (model : Model) (lib : SchedLib)
    (subset : Subset) (metric : ℚ) (s : OptimState)
    (stored : Option ℤ) (storedLr : Option ℚ)
    (hopt : opts.optimizer ∈ parse.optimizers)
    (hsched : opts.lr_schedule = "plateau" ∨ opts.lr_schedule = "step" ∨
      opts.lr_schedule = "none")
    (hsub : ∃ n, subsetRawName subset = .ok n) :
    (∃ o, optimizer opts model = .ok (o, model)) ∧
    (∃ out, (schedule_step lib opts subset metric s).2 = .ok out) ∧
    (∃ r, (lr_checkpointer opts subset storedLr s).2 = .ok r) ∧
    ∃ e, epoch_checkpointer opts stored =
      ({ name := "epoch_" ++ opts.experiment_name, directory := opts.save_path,
         overwrite := true, timestamp := false, add_count := false }, e) := by
  obtain ⟨n, hn⟩ := hsub
  refine ⟨optimizer_ok_of_mem opts model hopt, ?_, ?_, ?_⟩
  · refine schedule_step_ok lib opts subset metric s ?_ ⟨n, hn⟩
    rcases hsched with hm | hm | hm
    · exact ⟨.plateauStep metric, by simp [schedule_fn, hm]⟩
    · exact ⟨.steplrStep, by simp [schedule_fn, hm]⟩
    · exact ⟨.noop, by simp [schedule_fn, hm]⟩
  · simp only [lr_checkpointer, hn]
    exact ⟨_, rfl⟩
  · exact ⟨pyOr stored 1, rfl⟩

/-- C3 witness: the amended safety statement evaluated on concrete inputs. -/
theorem module_error_safety_witness :
    (∃ o, optimizer sampleOpts sampleModel = .ok (o, sampleModel)) ∧
    (∃ out, (schedule_step idLib sampleOpts .pyNone 0 sampleState).2 = .ok out) ∧
    (∃ r, (lr_checkpointer sampleOpts .pyNone none sampleState).2 = .ok r) ∧
    ∃ e, epoch_checkpointer sampleOpts none =
      ({ name := "epoch_" ++ sampleOpts.experiment_name,
         directory := sampleOpts.save_path,
         overwrite := true, timestamp := false, add_count := false }, e) :=
  module_error_safety sampleOpts sampleModel idLib .pyNone 0 sampleState
    none none (by decide) (Or.inr (Or.inr rfl)) ⟨"", rfl⟩

/-- C10: the closure returned by `scheduler` prints a learning-rate-change
message exactly when the step changed `param_groups[0]['lr']`; with
`lr_schedule = 'none'` the closure never prints and leaves the state
unchanged for every metric. -/
theorem schedule_step_print_iff (lib : SchedLib) (opts : Opts)
    (subset : Subset) (metric : ℚ) (s : OptimState) :
    (∀ out, (schedule_step lib opts subset metric s).2 = .ok out →
      (out ≠ [] ↔
        (schedule_step lib opts subset metric s).1.pg0.lr ≠ s.pg0.lr)) ∧
    (opts.lr_schedule = "none" →
      schedule_step lib opts subset metric s = (s, .ok [])) := by
  constructor
  · intro out
    simp only [schedule_step]
    split
    · intro hout
      exact Except.noConfusion hout
    · split
      · rename_i hne
        split
        · intro hout
          exact Except.noConfusion hout
        · intro hout
          injection hout with h
          subst h
          simp [hne]
      · rename_i hne
        intro hout
        injection hout with h
        subst h
        simp [hne]
  · intro hm
    simp [schedule_step, schedule_fn, hm, applySchedCall]

/-- C10 witness: the `'none'` schedule on concrete inputs. -/
theorem schedule_step_print_iff_witness :
    schedule_step idLib sampleOpts .pyNone 0 sampleState =
      (sampleState, .ok []) :=
  (schedule_step_print_iff idLib sampleOpts .pyNone 0 sampleState).2 rfl

/-- C5 counterexample: `current_epoch = epoch_chkp.load() or 1` uses Python
truthiness, so with a persisted epoch value of `0` the reported current
epoch is `1`, not the persisted value, although a checkpoint exists. -/
theorem epoch_checkpointer_stored_zero_counterexample :
    (epoch_checkpointer sampleOpts (some 0)).2 = 1 ∧
      ¬(epoch_checkpointer sampleOpts (some 0)).2 = 0 := by decide

/-- C5 amended: `epoch_checkpointer` returns the checkpointer keyed
`'epoch_' + experiment_name` in the configured save path, and the current
epoch equals the persisted value when a checkpoint with a truthy (nonzero)
value exists, and `1` when no checkpoint has been persisted or the
persisted value is falsy. -/
theorem epoch_checkpointer_spec (opts : Opts) (stored : Option ℤ) :
    (epoch_checkpointer opts stored).1 =
      { name := "epoch_" ++ opts.experiment_name, directory := opts.save_path,
        overwrite := true, timestamp := false, add_count := false } ∧
    (∀ v, stored = some v → v ≠ 0 → (epoch_checkpointer opts stored).2 = v) ∧
    (stored = none → (epoch_checkpointer opts stored).2 = 1) ∧
    (stored = some 0 → (epoch_checkpointer opts stored).2 = 1) := by
  refine ⟨rfl, fun v hv hvz => ?_, fun hv => ?_, fun hv => ?_⟩ <;>
    simp [epoch_checkpointer, pyOr, hv]
  exact fun h => absurd h hvz

/-- C5 witness: a truthy persisted epoch is restored on concrete inputs. -/
theorem epoch_checkpointer_spec_witness :
    (epoch_checkpointer sampleOpts (some 5)).2 = 5 :=
  (epoch_checkpointer_spec sampleOpts (some 5)).2.1 5 rfl (by decide)

/-- C6 counterexample: `lr = lr_chkp.load() or opts.lr` uses Python
truthiness, so with a persisted learning rate of `0` the optimizer is set
to the configured `opts.lr` (here `1/100`), not the persisted value,
although a checkpoint exists. -/
theorem lr_checkpointer_stored_zero_counterexample :
    (lr_checkpointer sampleOpts .pyNone (some 0) sampleState).1.pg0.lr
        = 1 / 100 ∧
      ¬(lr_checkpointer sampleOpts .pyNone (some 0) sampleState).1.pg0.lr
        = 0 := by
  constructor <;>
    norm_num [lr_checkpointer, pyOr, subsetRawName, sampleOpts, sampleState]

/-- C6 amended: `lr_checkpointer(optimizer)` sets the learning rate of the
optimizer's first parameter group to the persisted value when a checkpoint
with a truthy (nonzero) value exists, and to the configured `opts.lr` when
no checkpoint exists or the persisted value is falsy; it returns the
checkpointer keyed `'lr_' + experiment_name`. -/
theorem lr_checkpointer_spec (opts : Opts) (subset : Subset)
    (stored : Option ℚ) (s : OptimState) :
    (∀ v, stored = some v → v ≠ 0 →
      (lr_checkpointer opts subset stored s).1.pg0.lr = v) ∧
    (stored = none →
      (lr_checkpointer opts subset stored s).1.pg0.lr = opts.lr) ∧
    (stored = some 0 →
      (lr_checkpointer opts subset stored s).1.pg0.lr = opts.lr) ∧
    ∀ c out, (lr_checkpointer opts subset stored s).2 = .ok (c, out) →
      c = { name := "lr_" ++ opts.experiment_name,
            directory := opts.save_path,
            overwrite := true, timestamp := false, add_count := false } := by
  rcases hn : subsetRawName subset with e | n
  all_goals refine ⟨fun v hv hvz => ?_, fun hv => ?_, fun hv => ?_,
    fun c out h => ?_⟩
  · simp [lr_checkpointer, pyOr, hv, hn]
    exact fun h2 => absurd h2 hvz
  · simp [lr_checkpointer, pyOr, hv, hn]
  · simp [lr_checkpointer, pyOr, hv, hn]
  · simp [lr_checkpointer, hn] at h
  · simp [lr_checkpointer, pyOr, hv, hn]
    exact fun h2 => absurd h2 hvz
  · simp [lr_checkpointer, pyOr, hv, hn]
  · simp [lr_checkpointer, pyOr, hv, hn]
  · simp [lr_checkpointer, hn] at h
    exact h.1.symm

/-- C6 witness: a truthy persisted learning rate is restored on concrete
inputs. -/
theorem lr_checkpointer_spec_witness :
    (lr_checkpointer sampleOpts .pyNone (some (1 / 2)) sampleState).1.pg0.lr
      = 1 / 2 :=
  (lr_checkpointer_spec sampleOpts .pyNone (some (1 / 2)) sampleState).1
    (1 / 2) rfl (by norm_num)

/-- C7: the module mutates nothing but the caller-owned optimizer state:
`optimizer` returns the model unchanged, `lr_checkpointer` writes only the
`lr` entry of the first parameter group (all other entries and all other
groups are untouched), and the scheduler closure changes the optimizer
state only through the selected library schedule step (or not at all). -/
theorem frame_effects (opts : Opts) (model : Model) (lib : SchedLib)
    (subset : Subset) (metric : ℚ) (s : OptimState) (stored : Option ℚ) :
    (∀ o m2, optimizer opts model = .ok (o, m2) → m2 = model) ∧
    ((lr_checkpointer opts subset stored s).1.pg0.other = s.pg0.other ∧
     (lr_checkpointer opts subset stored s).1.rest = s.rest) ∧
    ((schedule_step lib opts subset metric s).1 = s ∨
     ∃ call, schedule_fn opts metric = .ok call ∧
       (schedule_step lib opts subset metric s).1 =
         applySchedCall lib s call) := by
  refine ⟨fun o m2 h => (optimizer_ok_cases opts model o m2 h).1, ?_, ?_⟩
  · rcases hn : subsetRawName subset with e | n <;>
      simp [lr_checkpointer, hn]
  · rcases hc : schedule_fn opts metric with e | c
    · left
      simp [schedule_step, hc]
    · right
      refine ⟨c, rfl, ?_⟩
      simp only [schedule_step, hc]
      split
      · rcases hn : subsetRawName subset with e | n <;> simp [hn]
      · rfl

/-- C7 witness: the frame conditions evaluated on concrete inputs. -/
theorem frame_effects_witness :
    sampleModel = sampleModel ∧
      (lr_checkpointer sampleOpts .pyNone none sampleState).1.pg0.other
        = sampleState.pg0.other :=
  ⟨(frame_effects sampleOpts sampleModel idLib .pyNone 0 sampleState none).1
      (.Adam (sampleModel.parameters.filter (fun p => p.requires_grad))
        sampleOpts.lr (sampleOpts.beta1, sampleOpts.beta2)
        sampleOpts.weight_decay) sampleModel (by rfl),
   (frame_effects sampleOpts sampleModel idLib .pyNone 0 sampleState
      none).2.1.1⟩

/-- C9: the checkpoint-restored values are taken only when truthy: a falsy
persisted epoch (`None` or `0`) yields current epoch `1`, and a falsy
persisted learning rate (`None` or `0`) falls back to `opts.lr`. -/
theorem checkpoint_falsy_fallback (opts : Opts) (subset : Subset)
    (s : OptimState) :
    (epoch_checkpointer opts (some 0)).2 = 1 ∧
    (epoch_checkpointer opts none).2 = 1 ∧
    (lr_checkpointer opts subset (some 0) s).1.pg0.lr = opts.lr ∧
    (lr_checkpointer opts subset none s).1.pg0.lr = opts.lr := by
  rcases hn : subsetRawName subset with e | n <;>
    simp [epoch_checkpointer, lr_checkpointer, pyOr, hn]

end PyDLT
